import Mathlib

/-!
Verification of the facility-resolution core of `actions/actions.py`.

The embedding is shallow: each Python function of the core is translated to
a Lean definition over the decoded data it manipulates.  Network transport
is factored out — functions that in the source perform an HTTP GET are
modelled on the result list they receive back.  Python string methods
(`upper`, `title`, `isdigit`, `format`) are modelled on their ASCII
fragment, which is the fragment the registry, the templates and the
recorded scenarios exercise.  A record (a decoded JSON object) is an
association list from field name to string value; a missing field, which
raises `KeyError` (or, on the one `dict.get` call site, yields `None` and
makes the subsequent concatenation raise `TypeError`), is modelled by the
`Option` monad: every uncaught Python exception is `none`.
-/

/-- The open-brace character of a Python format slot. -/
def ob : Char := Char.ofNat 123

/-- The close-brace character of a Python format slot. -/
def cb : Char := Char.ofNat 125

/-- Tests for the open-brace character. -/
def isOb (c : Char) : Bool := c.toNat == 123

/-- Tests for the close-brace character. -/
def isCb (c : Char) : Bool := c.toNat == 125

/-- Core of Python `str.format` with empty positional slots: each
occurrence of an open brace immediately followed by a close brace is
replaced by the next argument, left to right; replacement text is not
rescanned.  (Arity mismatches raise in Python; they are unreachable at
every call site of this development and are left as the identity here.) -/
def formatSlots : List Char → List String → List Char
  | [], _ => []
  | [c], _ => [c]
  | c :: c2 :: rest, args =>
    if isOb c && isCb c2 then
      match args with
      | a :: args2 => a.data ++ formatSlots rest args2
      | [] => c :: c2 :: formatSlots rest []
    else c :: formatSlots (c2 :: rest) args

/-- Python `fmt.format(args...)` restricted to empty positional slots. -/
def pyformat (fmt : String) (args : List String) : String :=
  ⟨formatSlots fmt.data args⟩

/-- Python `str.upper` on the ASCII fragment. -/
def pyUpper (s : String) : String := ⟨s.data.map Char.toUpper⟩

/-- Scanner for Python `str.title`: a letter after a non-letter is
upper-cased, a letter after a letter is lower-cased, and every other
character is kept and resets the word boundary. -/
def titleAux : List Char → Bool → List Char
  | [], _ => []
  | c :: rest, prevCased =>
    if c.isAlpha then
      (if prevCased then c.toLower else c.toUpper) :: titleAux rest true
    else c :: titleAux rest false

/-- Python `str.title` on the ASCII fragment. -/
def pyTitle (s : String) : String := ⟨titleAux s.data false⟩

/-- Python `str.isdigit` on the ASCII fragment: true exactly on non-empty
strings all of whose characters are decimal digits. -/
def str_isdigit (s : String) : Bool :=
  !s.data.isEmpty && s.data.all Char.isDigit

/-- The three query templates owned by one data source, as in the
`ENDPOINTS` table of the source. -/
structure QueryTemplates where
  city_query : String
  zip_code_query : String
  id_query : String
  deriving DecidableEq

/-- The `base` entry of the `ENDPOINTS` table. -/
def ENDPOINTS_base : String := "https://data.medicare.gov/resource/\x7b\x7d.json"

/-- The per-data-source entries of the `ENDPOINTS` table; an unknown key
raises `KeyError` in the source and is `none` here. -/
def ENDPOINTS (resource : String) : Option QueryTemplates :=
  if resource = "xubh-q36u" then
    some ⟨"?city=\x7b\x7d", "?zip_code=\x7b\x7d", "?provider_id=\x7b\x7d"⟩
  else if resource = "b27b-2uc7" then
    some ⟨"?provider_city=\x7b\x7d", "?provider_zip_code=\x7b\x7d",
          "?federal_provider_number=\x7b\x7d"⟩
  else if resource = "9wzi-peqs" then
    some ⟨"?city=\x7b\x7d", "?zip=\x7b\x7d", "?provider_number=\x7b\x7d"⟩
  else none

/-- One entry of the `FACILITY_TYPES` table. -/
structure FacilityType where
  name : String
  resource : String
  deriving DecidableEq

/-- The `FACILITY_TYPES` table, in its insertion order. -/
def FACILITY_TYPES : List (String × FacilityType) :=
  [("hospital", ⟨"hospital", "xubh-q36u"⟩),
   ("nursing_home", ⟨"nursing home", "b27b-2uc7"⟩),
   ("home_health", ⟨"home health agency", "9wzi-peqs"⟩)]

/-- The `values` parameter of `_create_path`, which the source tests with
`isinstance(values, list)`. -/
inductive PyStrOrList where
  | str (s : String)
  | list (l : List String)

/-- Python `'"\x7b0\x7d"'.format(w)`: wraps a string in double quotes. -/
def pyQuote (w : String) : String := "\"" ++ w ++ "\""

/-- `_create_path` of the source: formats `base + query` with the resource
key and the value; a list value is element-wise quoted and joined with
a comma and a space first. -/
def _create_path (base resource query : String) (values : PyStrOrList) : String :=
  match values with
  | .list l =>
      pyformat (base ++ query) [resource, String.intercalate ", " (l.map pyQuote)]
  | .str s => pyformat (base ++ query) [resource, s]

/-- The path-construction part of `_find_facilities` of the source (the
function then GETs this path; the transport is out of the embedding).
An unregistered resource key raises `KeyError` and is `none`. -/
def _find_facilities_path (location resource : String) : Option String := do
  let qt ← ENDPOINTS resource
  if str_isdigit location then
    pure (_create_path ENDPOINTS_base resource qt.zip_code_query (.str location))
  else
    pure (_create_path ENDPOINTS_base resource qt.city_query (.str (pyUpper location)))

/-- `_resolve_name` of the source: linear scan of the facility-type table
for a matching resource key; the empty string when none matches. -/
def _resolve_name : List (String × FacilityType) → String → String
  | [], _ => ""
  | (_, v) :: rest, resource =>
    if v.resource = resource then v.name else _resolve_name rest resource

/-- A decoded JSON record: field name to string value. -/
def Record := List (String × String)

/-- Field access on a record; `none` models `KeyError` (or `dict.get`
returning `None`). -/
def Record.get (r : Record) (k : String) : Option String := List.lookup k r

/-- The per-category address normalization of `FindHealthCareAddress.run`
(lines 143-163): dispatch on the data-source key, extract the four address
components, and join them as `street, city, STATE zip` with title-cased
street and city, upper-cased state, and the zip passed through `title`.
Any key other than the hospital and nursing-home keys takes the trailing
`else` branch. -/
def facility_address (facility_type : String) (selected : Record) : Option String :=
  if facility_type = "xubh-q36u" then do
    let a ← Record.get selected "address"
    let c ← Record.get selected "city"
    let s ← Record.get selected "state"
    let z ← Record.get selected "zip_code"
    pure (pyTitle a ++ ", " ++ pyTitle c ++ ", " ++ pyUpper s ++ " " ++ pyTitle z)
  else if facility_type = "b27b-2uc7" then do
    let a ← Record.get selected "provider_address"
    let c ← Record.get selected "provider_city"
    let s ← Record.get selected "provider_state"
    let z ← Record.get selected "provider_zip_code"
    pure (pyTitle a ++ ", " ++ pyTitle c ++ ", " ++ pyUpper s ++ " " ++ pyTitle z)
  else do
    let a ← Record.get selected "address"
    let c ← Record.get selected "city"
    let s ← Record.get selected "state"
    let z ← Record.get selected "zip"
    pure (pyTitle a ++ ", " ++ pyTitle c ++ ", " ++ pyUpper s ++ " " ++ pyTitle z)

/-- `FindHealthCareAddress.run` from the point where the decoded result
list is in hand (line 141 on): an empty list yields the sentinel
`"not found"`, a non-empty one the address of its first element. -/
def find_healthcare_address (facility_type : String) (results : List Record) : Option String :=
  match results with
  | [] => some "not found"
  | selected :: _ => facility_address facility_type selected

/-- One iteration of the button loop of `SubmitFacilityForm.run` (lines
226-239): dispatch on the data-source key for the identifier and name
fields, title-case the name for the button title, and embed the identifier
in the button payload.  The hospital branch reads the identifier with
`dict.get`; if the field is absent the payload concatenation raises
`TypeError`, so the outcome for any absent field is a raised exception,
i.e. `none`. -/
def make_button (facility_type : String) (r : Record) : Option (String × String) :=
  if facility_type = "xubh-q36u" then do
    let fid ← Record.get r "provider_id"
    let nm ← Record.get r "hospital_name"
    pure (pyTitle nm, "/inform\x7b\"facility_id\":\"" ++ fid ++ "\"\x7d")
  else if facility_type = "b27b-2uc7" then do
    let fid ← Record.get r "federal_provider_number"
    let nm ← Record.get r "provider_name"
    pure (pyTitle nm, "/inform\x7b\"facility_id\":\"" ++ fid ++ "\"\x7d")
  else do
    let fid ← Record.get r "provider_number"
    let nm ← Record.get r "provider_name"
    pure (pyTitle nm, "/inform\x7b\"facility_id\":\"" ++ fid ++ "\"\x7d")

/-- The button loop of `SubmitFacilityForm.run` over a list of records. -/
def build_buttons (facility_type : String) : List Record → Option (List (String × String))
  | [] => some []
  | r :: rest => do
    let b ← make_button facility_type r
    let bs ← build_buttons facility_type rest
    pure (b :: bs)

/-- The result-presentation part of `SubmitFacilityForm.run`: with zero
results the action returns before building buttons; otherwise the loop
runs over `results[:3]`. -/
def submit_facility_buttons (facility_type : String) (results : List Record) :
    Option (List (String × String)) :=
  if results.length = 0 then some []
  else build_buttons facility_type (results.take 3)

/-- The message construction of `SubmitFacilityForm.run` (lines 241-248):
singular for exactly one button, otherwise the count and the label with a
trailing `s`, where the label `home health agency` is first rewritten to
`home health agencie`. -/
def facility_message (button_name : String) (numButtons : Nat) : String :=
  if numButtons = 1 then
    "Here is a " ++ button_name ++ " near you:"
  else
    let bn := if button_name = "home health agency" then "home health agencie"
              else button_name
    "Here are " ++ toString numButtons ++ " " ++ bn ++ "s near you:"

/-- The two-character format slot as a string. -/
def slotStr : String := ⟨[ob, cb]⟩

/-- A string free of open braces, which the slot scanner copies verbatim. -/
abbrev noBrace (s : String) : Prop := ∀ c ∈ s.data, isOb c = false

/-- The nursing-home record of the spec's scenario D. -/
def acmeRecord : Record :=
  [("provider_name", "acme home"), ("federal_provider_number", "123"),
   ("provider_address", "1 main st"), ("provider_city", "boston"),
   ("provider_state", "ma"), ("provider_zip_code", "02108")]

/-- A five-record upstream hospital result list, for exercising the
three-result cap. -/
def hospitalRecords : List Record :=
  [[("provider_id", "1"), ("hospital_name", "alpha hospital")],
   [("provider_id", "2"), ("hospital_name", "beta hospital")],
   [("provider_id", "3"), ("hospital_name", "gamma hospital")],
   [("provider_id", "4"), ("hospital_name", "delta hospital")],
   [("provider_id", "5"), ("hospital_name", "epsilon hospital")]]

/-- The buttons the source builds from the first three hospital records. -/
def firstThreeButtons : List (String × String) :=
  [("Alpha Hospital", "/inform\x7b\"facility_id\":\"1\"\x7d"),
   ("Beta Hospital", "/inform\x7b\"facility_id\":\"2\"\x7d"),
   ("Gamma Hospital", "/inform\x7b\"facility_id\":\"3\"\x7d")]

/-! Helper lemmas about strings and the format model. -/

lemma string_data_eq {a b : String} (h : a.data = b.data) : a = b := by
  cases a
  cases b
  exact congrArg String.mk h

lemma data_append (s t : String) : (s ++ t).data = s.data ++ t.data := by
  cases s
  cases t
  rfl

lemma string_append_empty (s : String) : s ++ "" = s := by
  apply string_data_eq
  simp [data_append]

lemma string_append_assoc (a b c : String) : a ++ b ++ c = a ++ (b ++ c) := by
  apply string_data_eq
  simp [data_append]

lemma slot_data : slotStr.data = [ob, cb] := rfl

lemma formatSlots_cons (c : Char) (hc : isOb c = false) (L : List Char)
    (args : List String) : formatSlots (c :: L) args = c :: formatSlots L args := by
  cases L with
  | nil => cases args <;> rfl
  | cons c2 t => simp [formatSlots, hc]

lemma formatSlots_slot (L : List Char) (a : String) (args : List String) :
    formatSlots (ob :: cb :: L) (a :: args) = a.data ++ formatSlots L args := rfl

lemma formatSlots_append (l : List Char) (h : ∀ c ∈ l, isOb c = false)
    (rest : List Char) (args : List String) :
    formatSlots (l ++ rest) args = l ++ formatSlots rest args := by
  induction l with
  | nil => rfl
  | cons c t ih =>
    have hc : isOb c = false := h c (by simp)
    have ht : ∀ x ∈ t, isOb x = false := fun x hx => h x (by simp [hx])
    simp only [List.cons_append]
    rw [formatSlots_cons c hc, ih ht]

lemma formatSlots_no_args (l : List Char) (h : ∀ c ∈ l, isOb c = false) :
    formatSlots l [] = l := by
  have := formatSlots_append l h [] []
  simpa [formatSlots] using this

lemma noBrace_append (s t : String) (hs : noBrace s) (ht : noBrace t) :
    noBrace (s ++ t) := by
  intro c hc
  rw [data_append] at hc
  rcases List.mem_append.mp hc with h | h
  · exact hs c h
  · exact ht c h

/-- Two-slot format strings act as pure composition around their slots. -/
lemma pyformat_two (p1 p2 p3 a b : String)
    (h1 : noBrace p1) (h2 : noBrace p2) (h3 : noBrace p3) :
    pyformat (p1 ++ slotStr ++ p2 ++ slotStr ++ p3) [a, b]
      = p1 ++ a ++ p2 ++ b ++ p3 := by
  apply string_data_eq
  simp only [pyformat]
  have hx : (p1 ++ slotStr ++ p2 ++ slotStr ++ p3).data
      = p1.data ++ (ob :: cb :: (p2.data ++ (ob :: cb :: p3.data))) := by
    simp [data_append, slot_data, List.append_assoc]
  rw [hx, formatSlots_append p1.data h1, formatSlots_slot,
      formatSlots_append p2.data h2, formatSlots_slot,
      formatSlots_no_args p3.data h3]
  simp [data_append, List.append_assoc]

lemma str_isdigit_iff (s : String) :
    str_isdigit s = true ↔ (s ≠ "" ∧ ∀ c ∈ s.data, c.isDigit = true) := by
  unfold str_isdigit
  rw [Bool.and_eq_true, Bool.not_eq_true']
  constructor
  · rintro ⟨h1, h2⟩
    refine ⟨fun he => by simp [he] at h1, fun c hc => (List.all_eq_true.mp h2) c hc⟩
  · rintro ⟨h1, h2⟩
    refine ⟨?_, List.all_eq_true.mpr h2⟩
    cases hs : s.data with
    | nil => exact absurd (string_data_eq (by simp [hs])) h1
    | cons a t => rfl

example : str_isdigit "12345" = true := by decide
example : str_isdigit "" = false := by decide
example : str_isdigit "0b2" = false := by decide
example : pyTitle "1 main st" = "1 Main St" := by decide
example : pyTitle "BOSTON" = "Boston" := by decide
example : pyUpper "ma" = "MA" := by decide
example : _find_facilities_path "12345" "xubh-q36u"
    = some "https://data.medicare.gov/resource/xubh-q36u.json?zip_code=12345" := by decide
example : _find_facilities_path "boston" "xubh-q36u"
    = some "https://data.medicare.gov/resource/xubh-q36u.json?city=BOSTON" := by decide
example : _find_facilities_path "" "xubh-q36u"
    = some "https://data.medicare.gov/resource/xubh-q36u.json?city=" := by decide
example : _resolve_name FACILITY_TYPES "b27b-2uc7" = "nursing home" := by decide

/-! Claim theorems. -/

/-- Claim C8: `_create_path` is pure string composition.  For any base
pattern and query template each holding one slot between brace-free
pieces, a single-string value is substituted as-is, and a list value is
element-wise double-quoted and joined with a comma and a space before
substitution into the single slot. -/
theorem create_path_pure_composition
    (base query p1 p2 q1 q2 resource v : String) (vs : List String)
    (hb : base = p1 ++ slotStr ++ p2) (hq : query = q1 ++ slotStr ++ q2)
    (h1 : noBrace p1) (h2 : noBrace p2) (h3 : noBrace q1) (h4 : noBrace q2) :
    _create_path base resource query (.str v)
      = p1 ++ resource ++ p2 ++ q1 ++ v ++ q2 ∧
    _create_path base resource query (.list vs)
      = p1 ++ resource ++ p2 ++ q1
          ++ String.intercalate ", " (vs.map pyQuote) ++ q2 := by
  subst hb hq
  have key : ∀ w : String,
      pyformat ((p1 ++ slotStr ++ p2) ++ (q1 ++ slotStr ++ q2)) [resource, w]
        = p1 ++ resource ++ p2 ++ q1 ++ w ++ q2 := by
    intro w
    have hsh : (p1 ++ slotStr ++ p2) ++ (q1 ++ slotStr ++ q2)
        = p1 ++ slotStr ++ (p2 ++ q1) ++ slotStr ++ q2 := by
      apply string_data_eq
      simp [data_append, List.append_assoc]
    rw [hsh, pyformat_two p1 (p2 ++ q1) q2 resource w h1 (noBrace_append p2 q1 h2 h3) h4]
    apply string_data_eq
    simp [data_append, List.append_assoc]
  exact ⟨key v, key (String.intercalate ", " (vs.map pyQuote))⟩

/-- Witness for C8 at the hospital city template: a plain value is
substituted unchanged, and a two-element list value is quoted and joined
before substitution. -/
theorem create_path_pure_composition_witness :
    _create_path ENDPOINTS_base "xubh-q36u" "?city=\x7b\x7d" (.str "BOSTON")
      = "https://data.medicare.gov/resource/xubh-q36u.json?city=BOSTON" ∧
    _create_path ENDPOINTS_base "xubh-q36u" "?city=\x7b\x7d" (.list ["02108", "02139"])
      = "https://data.medicare.gov/resource/xubh-q36u.json?city=\"02108\", \"02139\"" := by
  have h := create_path_pure_composition ENDPOINTS_base "?city=\x7b\x7d"
      "https://data.medicare.gov/resource/" ".json" "?city=" "" "xubh-q36u" "BOSTON"
      ["02108", "02139"] (by decide) (by decide) (by decide) (by decide)
      (by decide) (by decide)
  exact ⟨h.1.trans (by decide), h.2.trans (by decide)⟩

/-- Claim C1, counterexample: at the empty location string every character
is (vacuously) a decimal digit, yet the hospital path is built from the
by-city template with an upper-cased (empty) term, not from the
by-postal-code template as the claim states. -/
theorem facility_search_classification_cex :
    (∀ c ∈ ("" : String).data, c.isDigit = true) ∧
    _find_facilities_path "" "xubh-q36u"
      = some "https://data.medicare.gov/resource/xubh-q36u.json?city=" ∧
    _find_facilities_path "" "xubh-q36u"
      ≠ some "https://data.medicare.gov/resource/xubh-q36u.json?zip_code=" := by
  decide

/-- Claim C1, amended: for every registered data-source key, a location
that is non-empty and all decimal digits selects that source's
by-postal-code template with the term unmodified, and any other location
(the empty string included) selects the by-city template with the term
upper-cased. -/
theorem facility_search_classification (loc : String) :
    ((loc ≠ "" ∧ ∀ c ∈ loc.data, c.isDigit = true) →
      _find_facilities_path loc "xubh-q36u"
        = some ("https://data.medicare.gov/resource/xubh-q36u.json?zip_code=" ++ loc) ∧
      _find_facilities_path loc "b27b-2uc7"
        = some ("https://data.medicare.gov/resource/b27b-2uc7.json?provider_zip_code=" ++ loc) ∧
      _find_facilities_path loc "9wzi-peqs"
        = some ("https://data.medicare.gov/resource/9wzi-peqs.json?zip=" ++ loc)) ∧
    ((loc = "" ∨ ¬ ∀ c ∈ loc.data, c.isDigit = true) →
      _find_facilities_path loc "xubh-q36u"
        = some ("https://data.medicare.gov/resource/xubh-q36u.json?city=" ++ pyUpper loc) ∧
      _find_facilities_path loc "b27b-2uc7"
        = some ("https://data.medicare.gov/resource/b27b-2uc7.json?provider_city=" ++ pyUpper loc) ∧
      _find_facilities_path loc "9wzi-peqs"
        = some ("https://data.medicare.gov/resource/9wzi-peqs.json?city=" ++ pyUpper loc)) := by
  have unfoldp : ∀ key cq zq iq : String,
      ENDPOINTS key = some ⟨cq, zq, iq⟩ →
      _find_facilities_path loc key
        = if str_isdigit loc then
            some (_create_path ENDPOINTS_base key zq (.str loc))
          else
            some (_create_path ENDPOINTS_base key cq (.str (pyUpper loc))) := by
    intro key cq zq iq hk
    unfold _find_facilities_path
    rw [hk]
    rfl
  have comp : ∀ pre key qname qt w : String,
      qt = qname ++ slotStr ++ "" →
      pre = "https://data.medicare.gov/resource/" ++ key ++ ".json" ++ qname →
      noBrace qname →
      _create_path ENDPOINTS_base key qt (.str w) = pre ++ w := by
    intro pre key qname qt w hqt hpre hq
    have h := (create_path_pure_composition ENDPOINTS_base qt
        "https://data.medicare.gov/resource/" ".json" qname "" key w []
        (by decide) hqt (by decide) (by decide) hq (by decide)).1
    rw [h, string_append_empty, hpre]
  constructor
  · rintro ⟨hne, hall⟩
    have hd : str_isdigit loc = true := (str_isdigit_iff loc).mpr ⟨hne, hall⟩
    refine ⟨?_, ?_, ?_⟩
    · rw [unfoldp "xubh-q36u" "?city=\x7b\x7d" "?zip_code=\x7b\x7d"
          "?provider_id=\x7b\x7d" (by decide), hd]
      simp only [ite_true]
      exact congrArg some (comp _ "xubh-q36u" "?zip_code=" _ loc (by decide) (by decide)
        (by decide))
    · rw [unfoldp "b27b-2uc7" "?provider_city=\x7b\x7d" "?provider_zip_code=\x7b\x7d"
          "?federal_provider_number=\x7b\x7d" (by decide), hd]
      simp only [ite_true]
      exact congrArg some (comp _ "b27b-2uc7" "?provider_zip_code=" _ loc (by decide)
        (by decide) (by decide))
    · rw [unfoldp "9wzi-peqs" "?city=\x7b\x7d" "?zip=\x7b\x7d"
          "?provider_number=\x7b\x7d" (by decide), hd]
      simp only [ite_true]
      exact congrArg some (comp _ "9wzi-peqs" "?zip=" _ loc (by decide) (by decide)
        (by decide))
  · intro h2
    have hd : str_isdigit loc = false := by
      cases hbool : str_isdigit loc with
      | false => rfl
      | true =>
        obtain ⟨hne, hall⟩ := (str_isdigit_iff loc).mp hbool
        rcases h2 with h2 | h2
        · exact absurd h2 hne
        · exact absurd hall h2
    refine ⟨?_, ?_, ?_⟩
    · rw [unfoldp "xubh-q36u" "?city=\x7b\x7d" "?zip_code=\x7b\x7d"
          "?provider_id=\x7b\x7d" (by decide), hd]
      simp only [Bool.false_eq_true, ite_false]
      exact congrArg some (comp _ "xubh-q36u" "?city=" _ (pyUpper loc) (by decide)
        (by decide) (by decide))
    · rw [unfoldp "b27b-2uc7" "?provider_city=\x7b\x7d" "?provider_zip_code=\x7b\x7d"
          "?federal_provider_number=\x7b\x7d" (by decide), hd]
      simp only [Bool.false_eq_true, ite_false]
      exact congrArg some (comp _ "b27b-2uc7" "?provider_city=" _ (pyUpper loc) (by decide)
        (by decide) (by decide))
    · rw [unfoldp "9wzi-peqs" "?city=\x7b\x7d" "?zip=\x7b\x7d"
          "?provider_number=\x7b\x7d" (by decide), hd]
      simp only [Bool.false_eq_true, ite_false]
      exact congrArg some (comp _ "9wzi-peqs" "?city=" _ (pyUpper loc) (by decide)
        (by decide) (by decide))

/-- Witness for the amended C1, reproducing the spec scenarios A and B:
a purely numeric term keeps the zip template unmodified, a city term is
upper-cased into the city template. -/
theorem facility_search_classification_witness :
    _find_facilities_path "12345" "xubh-q36u"
      = some "https://data.medicare.gov/resource/xubh-q36u.json?zip_code=12345" ∧
    _find_facilities_path "boston" "xubh-q36u"
      = some "https://data.medicare.gov/resource/xubh-q36u.json?city=BOSTON" := by
  constructor
  · exact (((facility_search_classification "12345").1 (by decide)).1).trans (by decide)
  · exact (((facility_search_classification "boston").2 (by decide)).1).trans (by decide)

/-- Claim C10: the empty location string is not classified as a postal
code (Python `isdigit` is false on the empty string), so for every
registered data source the search path uses the by-city template with an
empty substituted value. -/
theorem empty_location_is_city_search :
    str_isdigit "" = false ∧
    _find_facilities_path "" "xubh-q36u"
      = some "https://data.medicare.gov/resource/xubh-q36u.json?city=" ∧
    _find_facilities_path "" "b27b-2uc7"
      = some "https://data.medicare.gov/resource/b27b-2uc7.json?provider_city=" ∧
    _find_facilities_path "" "9wzi-peqs"
      = some "https://data.medicare.gov/resource/9wzi-peqs.json?city=" := by
  decide

/-- A four-step Option chain is `none` as soon as any step is `none`. -/
lemma bind_chain4_none (o1 o2 o3 o4 : Option String)
    (f : String → String → String → String → String)
    (h : o1 = none ∨ o2 = none ∨ o3 = none ∨ o4 = none) :
    (do
      let a ← o1
      let c ← o2
      let s ← o3
      let z ← o4
      pure (f a c s z) : Option String) = none := by
  cases o1 <;> cases o2 <;> cases o3 <;> cases o4 <;> simp_all

/-- A two-step Option chain is `none` as soon as either step is `none`. -/
lemma bind_chain2_none (o1 o2 : Option String) (f : String → String → String × String)
    (h : o1 = none ∨ o2 = none) :
    (do
      let fid ← o1
      let nm ← o2
      pure (f fid nm) : Option (String × String)) = none := by
  cases o1 <;> cases o2 <;> simp_all

/-- Claim C2: for every record holding the category-specific street, city,
state and postal-code fields, the normalized address is the
comma-and-space-joined `street, city, STATE postal` string with street and
city title-cased, state upper-cased, and the postal code passed through
the title transform. -/
theorem address_normalization (r : Record) (a c s z : String) :
    (Record.get r "address" = some a → Record.get r "city" = some c →
      Record.get r "state" = some s → Record.get r "zip_code" = some z →
      facility_address "xubh-q36u" r
        = some (pyTitle a ++ ", " ++ pyTitle c ++ ", " ++ pyUpper s ++ " " ++ pyTitle z)) ∧
    (Record.get r "provider_address" = some a → Record.get r "provider_city" = some c →
      Record.get r "provider_state" = some s → Record.get r "provider_zip_code" = some z →
      facility_address "b27b-2uc7" r
        = some (pyTitle a ++ ", " ++ pyTitle c ++ ", " ++ pyUpper s ++ " " ++ pyTitle z)) ∧
    (Record.get r "address" = some a → Record.get r "city" = some c →
      Record.get r "state" = some s → Record.get r "zip" = some z →
      facility_address "9wzi-peqs" r
        = some (pyTitle a ++ ", " ++ pyTitle c ++ ", " ++ pyUpper s ++ " " ++ pyTitle z)) := by
  refine ⟨?_, ?_, ?_⟩ <;> intro ha hc hs hz <;>
    simp [facility_address, ha, hc, hs, hz]

/-- Witness for C2, the spec's scenario D: the concrete nursing-home
record normalizes to the expected address string. -/
theorem address_normalization_witness :
    facility_address "b27b-2uc7" acmeRecord = some "1 Main St, Boston, MA 02108" := by
  have h := (address_normalization acmeRecord "1 main st" "boston" "ma" "02108").2.1
    (by decide) (by decide) (by decide) (by decide)
  exact h.trans (by decide)

/-- Claim C4: an identifier lookup whose decoded result list is empty sets
the sentinel address `"not found"`; a non-empty list is resolved through
its first element only. -/
theorem identifier_lookup_first_or_not_found (ft : String) (results : List Record) :
    (results = [] → find_healthcare_address ft results = some "not found") ∧
    (∀ r rest, results = r :: rest →
      find_healthcare_address ft results = facility_address ft r) := by
  constructor
  · intro h
    subst h
    rfl
  · intro r rest h
    subst h
    rfl

/-- Witness for C4: the sentinel on an empty result list, and first-element
resolution on a non-empty one. -/
theorem identifier_lookup_first_or_not_found_witness :
    find_healthcare_address "xubh-q36u" [] = some "not found" ∧
    find_healthcare_address "b27b-2uc7" [acmeRecord, acmeRecord]
      = facility_address "b27b-2uc7" acmeRecord :=
  ⟨(identifier_lookup_first_or_not_found "xubh-q36u" []).1 rfl,
   (identifier_lookup_first_or_not_found "b27b-2uc7" [acmeRecord, acmeRecord]).2
     acmeRecord [acmeRecord] rfl⟩

/-- Claim C5: in both normalization paths and for all three categories, a
record missing any expected category-specific field (name, identifier, or
an address component) makes normalization fail hard — the computation is
`none`, the model of the uncaught exception, never a degenerate result. -/
theorem missing_field_is_error (r : Record) :
    ((Record.get r "address" = none ∨ Record.get r "city" = none ∨
      Record.get r "state" = none ∨ Record.get r "zip_code" = none) →
      facility_address "xubh-q36u" r = none) ∧
    ((Record.get r "provider_address" = none ∨ Record.get r "provider_city" = none ∨
      Record.get r "provider_state" = none ∨ Record.get r "provider_zip_code" = none) →
      facility_address "b27b-2uc7" r = none) ∧
    ((Record.get r "address" = none ∨ Record.get r "city" = none ∨
      Record.get r "state" = none ∨ Record.get r "zip" = none) →
      facility_address "9wzi-peqs" r = none) ∧
    ((Record.get r "provider_id" = none ∨ Record.get r "hospital_name" = none) →
      make_button "xubh-q36u" r = none) ∧
    ((Record.get r "federal_provider_number" = none ∨ Record.get r "provider_name" = none) →
      make_button "b27b-2uc7" r = none) ∧
    ((Record.get r "provider_number" = none ∨ Record.get r "provider_name" = none) →
      make_button "9wzi-peqs" r = none) := by
  refine ⟨?_, ?_, ?_, ?_, ?_, ?_⟩ <;> intro h
  · simpa [facility_address] using bind_chain4_none (Record.get r "address")
      (Record.get r "city") (Record.get r "state") (Record.get r "zip_code")
      (fun a c s z => pyTitle a ++ ", " ++ pyTitle c ++ ", " ++ pyUpper s ++ " " ++ pyTitle z) h
  · simpa [facility_address] using bind_chain4_none (Record.get r "provider_address")
      (Record.get r "provider_city") (Record.get r "provider_state")
      (Record.get r "provider_zip_code")
      (fun a c s z => pyTitle a ++ ", " ++ pyTitle c ++ ", " ++ pyUpper s ++ " " ++ pyTitle z) h
  · simpa [facility_address] using bind_chain4_none (Record.get r "address")
      (Record.get r "city") (Record.get r "state") (Record.get r "zip")
      (fun a c s z => pyTitle a ++ ", " ++ pyTitle c ++ ", " ++ pyUpper s ++ " " ++ pyTitle z) h
  · simpa [make_button] using bind_chain2_none (Record.get r "provider_id")
      (Record.get r "hospital_name")
      (fun fid nm => (pyTitle nm, "/inform\x7b\"facility_id\":\"" ++ fid ++ "\"\x7d")) h
  · simpa [make_button] using bind_chain2_none (Record.get r "federal_provider_number")
      (Record.get r "provider_name")
      (fun fid nm => (pyTitle nm, "/inform\x7b\"facility_id\":\"" ++ fid ++ "\"\x7d")) h
  · simpa [make_button] using bind_chain2_none (Record.get r "provider_number")
      (Record.get r "provider_name")
      (fun fid nm => (pyTitle nm, "/inform\x7b\"facility_id\":\"" ++ fid ++ "\"\x7d")) h

/-- Witness for C5 at the empty record, where every field is absent: both
normalization paths fail for all three categories. -/
theorem missing_field_is_error_witness :
    facility_address "xubh-q36u" [] = none ∧
    facility_address "b27b-2uc7" [] = none ∧
    facility_address "9wzi-peqs" [] = none ∧
    make_button "xubh-q36u" [] = none ∧
    make_button "b27b-2uc7" [] = none ∧
    make_button "9wzi-peqs" [] = none :=
  ⟨(missing_field_is_error []).1 (Or.inl rfl),
   (missing_field_is_error []).2.1 (Or.inl rfl),
   (missing_field_is_error []).2.2.1 (Or.inl rfl),
   (missing_field_is_error []).2.2.2.1 (Or.inl rfl),
   (missing_field_is_error []).2.2.2.2.1 (Or.inl rfl),
   (missing_field_is_error []).2.2.2.2.2 (Or.inl rfl)⟩

/-- A successful run of the button loop relates records to buttons
pointwise and in order. -/
lemma build_buttons_forall2 (ft : String) :
    ∀ (l : List Record) (bs : List (String × String)),
      build_buttons ft l = some bs →
      List.Forall₂ (fun r b => make_button ft r = some b) l bs := by
  intro l
  induction l with
  | nil =>
    intro bs h
    simp only [build_buttons, Option.some.injEq] at h
    rw [← h]
    exact List.Forall₂.nil
  | cons r rest ih =>
    intro bs h
    simp only [build_buttons] at h
    cases hb : make_button ft r with
    | none => rw [hb] at h; simp at h
    | some b =>
      rw [hb] at h
      cases hrest : build_buttons ft rest with
      | none => rw [hrest] at h; simp at h
      | some bs2 =>
        rw [hrest] at h
        have h2 : some (b :: bs2) = some bs := h
        obtain rfl := Option.some.inj h2
        exact List.Forall₂.cons hb (ih bs2 hrest)

/-- Claim C3: the submitted search presents at most three normalized
entries, built exactly from the first three upstream records in order,
whatever the upstream result count. -/
theorem submit_results_truncation (ft : String) (results : List Record)
    (bs : List (String × String)) (h : submit_facility_buttons ft results = some bs) :
    bs.length ≤ 3 ∧
    List.Forall₂ (fun r b => make_button ft r = some b) (results.take 3) bs := by
  unfold submit_facility_buttons at h
  by_cases hlen : results.length = 0
  · rw [if_pos hlen] at h
    have hres : results = [] := List.length_eq_zero.mp hlen
    have hbs : bs = [] := by
      rw [← Option.some.injEq]
      exact h.symm
    subst hres
    subst hbs
    exact ⟨by simp, by simp⟩
  · rw [if_neg hlen] at h
    have hf := build_buttons_forall2 ft (results.take 3) bs h
    refine ⟨?_, hf⟩
    have hl := List.Forall₂.length_eq hf
    rw [← hl]
    simp only [List.length_take]
    omega

/-- Witness for C3: five upstream hospital records yield exactly the three
buttons of the first three records, in order. -/
theorem submit_results_truncation_witness :
    firstThreeButtons.length ≤ 3 ∧
    List.Forall₂ (fun r b => make_button "xubh-q36u" r = some b)
      (hospitalRecords.take 3) firstThreeButtons :=
  submit_results_truncation "xubh-q36u" hospitalRecords firstThreeButtons (by decide)

/-- Gluing lemma for message strings: a proven concatenation of the three
trailing pieces collapses a four-part append. -/
lemma append_collapse3 (x m1 m2 m3 m : String) (h : m1 ++ (m2 ++ m3) = m) :
    x ++ m1 ++ m2 ++ m3 = x ++ m := by
  apply string_data_eq
  have hd := congrArg String.data h
  simp only [data_append, List.append_assoc] at hd ⊢
  rw [hd]

/-- Claim C6: in the result message the label `home health agency`
pluralizes irregularly to `home health agencies`, every other label gets a
plain trailing `s`, and the plural form appears exactly when the number of
presented results differs from one. -/
theorem label_pluralization :
    (∀ n : Nat, n ≠ 1 →
      facility_message "home health agency" n
        = "Here are " ++ toString n ++ " home health agencies near you:") ∧
    (∀ n : Nat, n ≠ 1 →
      facility_message "hospital" n
        = "Here are " ++ toString n ++ " hospitals near you:") ∧
    (∀ n : Nat, n ≠ 1 →
      facility_message "nursing home" n
        = "Here are " ++ toString n ++ " nursing homes near you:") ∧
    (∀ nm : String, facility_message nm 1 = "Here is a " ++ nm ++ " near you:") := by
  refine ⟨?_, ?_, ?_, ?_⟩
  · intro n hn
    unfold facility_message
    rw [if_neg hn]
    exact append_collapse3 ("Here are " ++ toString n) " " "home health agencie"
      "s near you:" " home health agencies near you:" (by decide)
  · intro n hn
    unfold facility_message
    rw [if_neg hn]
    exact append_collapse3 ("Here are " ++ toString n) " " "hospital"
      "s near you:" " hospitals near you:" (by decide)
  · intro n hn
    unfold facility_message
    rw [if_neg hn]
    exact append_collapse3 ("Here are " ++ toString n) " " "nursing home"
      "s near you:" " nursing homes near you:" (by decide)
  · intro nm
    rfl

/-- Witness for C6 at concrete counts: two agencies, two hospitals, zero
nursing homes. -/
theorem label_pluralization_witness :
    facility_message "home health agency" 2 = "Here are 2 home health agencies near you:" ∧
    facility_message "hospital" 2 = "Here are 2 hospitals near you:" ∧
    facility_message "nursing home" 0 = "Here are 0 nursing homes near you:" := by
  refine ⟨?_, ?_, ?_⟩
  · exact (label_pluralization.1 2 (by decide)).trans (by decide)
  · exact (label_pluralization.2.1 2 (by decide)).trans (by decide)
  · exact (label_pluralization.2.2.1 0 (by decide)).trans (by decide)

/-- Claim C7: resolving a category's data-source key through the linear
scan returns that category's label, and any key no category maps to
returns the empty string. -/
theorem resolve_name_left_inverse :
    _resolve_name FACILITY_TYPES "xubh-q36u" = "hospital" ∧
    _resolve_name FACILITY_TYPES "b27b-2uc7" = "nursing home" ∧
    _resolve_name FACILITY_TYPES "9wzi-peqs" = "home health agency" ∧
    ∀ k : String, k ≠ "xubh-q36u" → k ≠ "b27b-2uc7" → k ≠ "9wzi-peqs" →
      _resolve_name FACILITY_TYPES k = "" := by
  refine ⟨by decide, by decide, by decide, ?_⟩
  intro k h1 h2 h3
  simp only [FACILITY_TYPES, _resolve_name]
  rw [if_neg (fun h => h1 h.symm), if_neg (fun h => h2 h.symm),
      if_neg (fun h => h3 h.symm)]

/-- Witness for C7: an unregistered key resolves to the empty string. -/
theorem resolve_name_left_inverse_witness :
    _resolve_name FACILITY_TYPES "zzz-unknown" = "" :=
  resolve_name_left_inverse.2.2.2 "zzz-unknown" (by decide) (by decide) (by decide)

/-- Claim C9: the category dispatch is an if/elif/else on the data-source
key, so every key other than the hospital and nursing-home keys — unknown
or malformed ones included — is silently handled with the
home-health-agency field schema in both normalization paths. -/
theorem unknown_key_uses_home_health_schema (ft : String)
    (h1 : ft ≠ "xubh-q36u") (h2 : ft ≠ "b27b-2uc7") (r : Record) :
    facility_address ft r = facility_address "9wzi-peqs" r ∧
    make_button ft r = make_button "9wzi-peqs" r := by
  constructor
  · unfold facility_address
    rw [if_neg h1, if_neg h2, if_neg (show ¬("9wzi-peqs" = "xubh-q36u") by decide),
        if_neg (show ¬("9wzi-peqs" = "b27b-2uc7") by decide)]
  · unfold make_button
    rw [if_neg h1, if_neg h2, if_neg (show ¬("9wzi-peqs" = "xubh-q36u") by decide),
        if_neg (show ¬("9wzi-peqs" = "b27b-2uc7") by decide)]

/-- Witness for C9 at a malformed key: both normalization paths behave as
for the home-health-agency schema. -/
theorem unknown_key_uses_home_health_schema_witness :
    facility_address "bogus-key" acmeRecord = facility_address "9wzi-peqs" acmeRecord ∧
    make_button "bogus-key" acmeRecord = make_button "9wzi-peqs" acmeRecord :=
  unknown_key_uses_home_health_schema "bogus-key" (by decide) (by decide) acmeRecord
